import Mathlib

/-!
Shallow embedding of the connection supervision core of `auto-connect`
(src/src/connection-manager.ts), together with theorems checking the
natural-language specification against it.

Modelling conventions:
  * JSON payloads that the supervisor never inspects are carried as opaque
    `String` fields (`payload`), copied verbatim by every operation.
  * A live `ChildProcess` handle is modelled as `Option Nat` (an opaque pid);
    `none` is TypeScript `null`.
  * `Date.now()` values, the success or failure of a process spawn, and the
    success or failure of a durable write are external events; they enter the
    model as explicit parameters (`now : Nat`, `SpawnOutcome`, `writeOk`).
  * TypeScript objects are modelled with value semantics; the aliasing that
    a duplicate id in a `reorder` input would create is outside the model,
    so theorems about `reorder` restrict to duplicate-free inputs.
  * Thrown exceptions are the `thrown : Option String` component of an
    operation's result; `none` means the promise resolved.
-/

namespace ConnMgr

/-- `ConnectionStatus` from connection-manager.ts. -/
inductive ConnectionStatus where
  | RUNNING
  | STOPPED
  | STARTING
  | ERROR
deriving DecidableEq, Repr

/-- One entry of a config's `inbounds` array: its `port` field, plus the rest
of the inbound object carried opaquely. -/
structure Inbound where
  port : Nat
  payload : String
deriving DecidableEq, Repr

/-- The slice of an Xray configuration the supervisor touches: the `inbounds`
array and `log.loglevel`, plus the rest of the JSON carried opaquely. -/
structure XrayConfig where
  inbounds : List Inbound
  logLoglevel : Option String
  payload : String
deriving DecidableEq, Repr

/-- `ConfigItem` from xray-manager.ts: a named configuration in the store. -/
structure ConfigItem where
  name : String
  config : XrayConfig
deriving DecidableEq, Repr

/-- `ConnectionInstance` from connection-manager.ts. -/
structure ConnectionInstance where
  id : String
  name : String
  config : XrayConfig
  port : Nat
  process : Option Nat
  status : ConnectionStatus
  connectionStartTime : Option Nat
  error : Option String
deriving DecidableEq, Repr

/-- One entry of the persisted projection built by `saveState`
(`Omit<ConnectionInstance, 'config' | 'process'>`). -/
structure PersistedConnection where
  id : String
  name : String
  port : Nat
  status : ConnectionStatus
  connectionStartTime : Option Nat
  error : Option String
deriving DecidableEq, Repr

/-- `ConnectionListState` from connection-manager.ts: the durable document. -/
structure ConnectionListState where
  connections : List PersistedConnection
  lastUpdated : Nat
deriving DecidableEq, Repr

/-- The manager's mutable state: the in-memory list, the `lastUpdated`
mirror, and the current content of connections.json. -/
structure MState where
  connections : List ConnectionInstance
  lastUpdated : Nat
  stored : ConnectionListState
deriving DecidableEq, Repr

/-- Result of one supervisor operation: the new state, how many times
`spawn` was invoked, and the exception propagated to the caller (if any). -/
structure OpResult where
  state : MState
  spawned : Nat
  thrown : Option String
deriving DecidableEq, Repr

/-- Outcome of awaiting a spawned process's first event: the `spawn` event
(with a pid), or an `error` event / startup timeout (with a message). -/
inductive SpawnOutcome where
  | ok (pid : Nat)
  | fail (msg : String)
deriving DecidableEq, Repr

/-- Replace the first element satisfying `p` by its image under `f`
(TypeScript mutates the single object returned by `Array.prototype.find`). -/
def updateFirst (p : ConnectionInstance → Bool) (f : ConnectionInstance → ConnectionInstance) :
    List ConnectionInstance → List ConnectionInstance
  | [] => []
  | c :: cs => if p c then f c :: cs else c :: updateFirst p f cs

/-- `getConnection` from connection-manager.ts. -/
def getConnection (conns : List ConnectionInstance) (id : String) :
    Option ConnectionInstance :=
  conns.find? (fun c => c.id == id)

/-- `getConnections` from connection-manager.ts: snapshot with the process
handle nulled out. -/
def getConnections (conns : List ConnectionInstance) : List ConnectionInstance :=
  conns.map (fun c => { c with process := none })

/-- `getConnectionStatus` from connection-manager.ts:
`connection?.status ?? ConnectionStatus.STOPPED`. -/
def getConnectionStatus (conns : List ConnectionInstance) (id : String) :
    ConnectionStatus :=
  match getConnection conns id with
  | some c => c.status
  | none => ConnectionStatus.STOPPED

/-- The per-connection projection written by `saveState`. -/
def projectConnection (c : ConnectionInstance) : PersistedConnection :=
  { id := c.id
    name := c.name
    port := c.port
    status := c.status
    connectionStartTime := c.connectionStartTime
    error := c.error }

/-- The document `saveState` serializes. -/
def serializeState (conns : List ConnectionInstance) (now : Nat) : ConnectionListState :=
  { connections := conns.map projectConnection, lastUpdated := now }

/-- Body of `saveState`'s `try` block: build the projection, write it
(`writeOk` is whether `fs.writeJson` succeeds), then update `lastUpdated`. -/
def saveStateBody (writeOk : Bool) (now : Nat) (s : MState) : Except String MState :=
  if writeOk then
    Except.ok { s with stored := serializeState s.connections now, lastUpdated := now }
  else
    Except.error "Failed to save state"

/-- `saveState` from connection-manager.ts: the `catch` block logs the error
and swallows it, so the returned exception component is always `none`. -/
def saveStateCaught (writeOk : Bool) (now : Nat) (s : MState) : MState × Option String :=
  match saveStateBody writeOk now s with
  | Except.ok s2 => (s2, none)
  | Except.error _ => (s, none)

/-- The state after `saveState` (used by every mutating operation). -/
def saveState (writeOk : Bool) (now : Nat) (s : MState) : MState :=
  (saveStateCaught writeOk now s).1

/-- `createTempConfig` from connection-manager.ts: deep-clone the config,
throw if `inbounds` is missing or empty, overwrite the first inbound's port
with the connection's assigned port, and force `log.loglevel = 'error'`. -/
def createTempConfig (c : ConnectionInstance) : Except String XrayConfig :=
  match c.config.inbounds with
  | [] => Except.error "No inbounds found in config"
  | i :: rest =>
      Except.ok { c.config with
        inbounds := { i with port := c.port } :: rest
        logLoglevel := some "error" }

/-- `addConnection` from connection-manager.ts. `configs` is what
`xrayManager.listConfigs()` returns; `maxConnections` is `MAX_CONNECTIONS`
(env-configurable, default 10); `startPort` is `CONNECTION_START_PORT`
(env-configurable, default 1080). -/
def addConnection (configs : List ConfigItem) (maxConnections startPort : Nat)
    (name : String) (writeOk : Bool) (now : Nat) (s : MState) : MState × Option String :=
  if s.connections.any (fun c => c.id == name) then
    (s, some ("Connection \"" ++ name ++ "\" already exists in the list"))
  else if maxConnections ≤ s.connections.length then
    (s, some "Maximum number of connections reached")
  else
    match configs.find? (fun c => c.name == name) with
    | none => (s, some ("Config \"" ++ name ++ "\" not found"))
    | some configItem =>
        let conn : ConnectionInstance :=
          { id := name
            name := name
            config := configItem.config
            port := startPort + s.connections.length
            process := none
            status := ConnectionStatus.STOPPED
            connectionStartTime := none
            error := none }
        let s2 := { s with connections := s.connections ++ [conn] }
        (saveState writeOk now s2, none)

/-- `startConnection` from connection-manager.ts. `outcome` is the external
result of awaiting the spawned process's first event; `spawned` counts calls
to `spawn`. -/
def startConnection (outcome : SpawnOutcome) (writeOk : Bool) (now : Nat)
    (s : MState) (id : String) : OpResult :=
  match getConnection s.connections id with
  | none => ⟨s, 0, some ("Connection \"" ++ id ++ "\" not found")⟩
  | some c =>
      if c.status == ConnectionStatus.RUNNING || c.status == ConnectionStatus.STARTING then
        ⟨s, 0, none⟩
      else
        let setStarting := fun (c2 : ConnectionInstance) =>
          { c2 with status := ConnectionStatus.STARTING, error := none }
        let s1 := { s with
          connections := updateFirst (fun c2 => c2.id == id) setStarting s.connections }
        match createTempConfig c with
        | Except.error e =>
            let setErr := fun (c2 : ConnectionInstance) =>
              { c2 with
                status := ConnectionStatus.ERROR, error := some e, process := none }
            let s2 := { s1 with
              connections := updateFirst (fun c2 => c2.id == id) setErr s1.connections }
            ⟨saveState writeOk now s2, 0, some e⟩
        | Except.ok _ =>
            match outcome with
            | SpawnOutcome.ok pid =>
                let setRunning := fun (c2 : ConnectionInstance) =>
                  { c2 with
                    process := some pid, status := ConnectionStatus.RUNNING,
                    connectionStartTime := some now }
                let s2 := { s1 with
                  connections := updateFirst (fun c2 => c2.id == id) setRunning s1.connections }
                ⟨saveState writeOk now s2, 1, none⟩
            | SpawnOutcome.fail msg =>
                let setErr := fun (c2 : ConnectionInstance) =>
                  { c2 with
                    status := ConnectionStatus.ERROR, error := some msg, process := none }
                let s2 := { s1 with
                  connections := updateFirst (fun c2 => c2.id == id) setErr s1.connections }
                ⟨saveState writeOk now s2, 1, some msg⟩

/-- The field updates `stopConnection` performs on a connection that is not
already Stopped: clear the handle, set Stopped, clear start time and error. -/
def stopRunningFields (c : ConnectionInstance) : ConnectionInstance :=
  { c with
    process := none, status := ConnectionStatus.STOPPED,
    connectionStartTime := none, error := none }

/-- `stopConnection` from connection-manager.ts. -/
def stopConnection (writeOk : Bool) (now : Nat) (s : MState) (id : String) : OpResult :=
  match getConnection s.connections id with
  | none => ⟨s, 0, some ("Connection \"" ++ id ++ "\" not found")⟩
  | some c =>
      if c.status == ConnectionStatus.STOPPED then
        ⟨s, 0, none⟩
      else
        let s1 := { s with
          connections := updateFirst (fun c2 => c2.id == id) stopRunningFields s.connections }
        ⟨saveState writeOk now s1, 0, none⟩

/-- `restartConnection` from connection-manager.ts. -/
def restartConnection (outcome : SpawnOutcome) (writeOk : Bool) (now : Nat)
    (s : MState) (id : String) : OpResult :=
  match getConnection s.connections id with
  | none => ⟨s, 0, some ("Connection \"" ++ id ++ "\" not found")⟩
  | some c =>
      let wasRunning := c.status == ConnectionStatus.RUNNING
      let r := stopConnection writeOk now s id
      if wasRunning then
        let r2 := startConnection outcome writeOk now r.state id
        ⟨r2.state, r.spawned + r2.spawned, r2.thrown⟩
      else r

/-- The positional reassignment `connection.port = assignPort(index)`
(`assignPort index = CONNECTION_START_PORT + index`). -/
def assignPorts (startPort : Nat) : Nat → List ConnectionInstance → List ConnectionInstance
  | _, [] => []
  | i, c :: cs => { c with port := startPort + i } :: assignPorts startPort (i + 1) cs

/-- The restart loop of `updatePorts`: start each previously running
connection, catching and logging individual failures. `oracle` gives each
spawn's outcome. -/
def startMany (oracle : String → SpawnOutcome) (writeOk : Bool) (now : Nat) :
    List String → MState → MState × Nat
  | [], s => (s, 0)
  | id :: ids, s =>
      let r := startConnection (oracle id) writeOk now s id
      let rest := startMany oracle writeOk now ids r.state
      (rest.1, r.spawned + rest.2)

/-- `updatePorts` from connection-manager.ts: stop every Running/Starting
connection, reassign every port positionally, restart the previously running
ones (failures logged), then save. -/
def updatePorts (oracle : String → SpawnOutcome) (startPort : Nat) (writeOk : Bool)
    (now : Nat) (s : MState) : MState × Nat :=
  let runningIds := (s.connections.filter (fun c =>
    c.status == ConnectionStatus.RUNNING || c.status == ConnectionStatus.STARTING)).map
    (fun c => c.id)
  let conns1 := s.connections.map (fun c =>
    if c.status == ConnectionStatus.RUNNING || c.status == ConnectionStatus.STARTING then
      stopRunningFields c
    else c)
  let s2 := { s with connections := assignPorts startPort 0 conns1 }
  let r := startMany oracle writeOk now runningIds s2
  (saveState writeOk now r.1, r.2)

/-- `removeConnection` from connection-manager.ts. -/
def removeConnection (oracle : String → SpawnOutcome) (startPort : Nat) (writeOk : Bool)
    (now : Nat) (s : MState) (id : String) : OpResult :=
  match getConnection s.connections id with
  | none => ⟨s, 0, some ("Connection \"" ++ id ++ "\" not found")⟩
  | some c =>
      let r1 :=
        if c.status == ConnectionStatus.RUNNING || c.status == ConnectionStatus.STARTING then
          stopConnection writeOk now s id
        else ⟨s, 0, none⟩
      let s2 := { r1.state with
        connections := r1.state.connections.filter (fun c2 => !(c2.id == id)) }
      let r2 := updatePorts oracle startPort writeOk now s2
      ⟨saveState writeOk now r2.1, r1.spawned + r2.2, none⟩

/-- `reorderConnections` from connection-manager.ts: reject ids that are not
in the list, rebuild the list in the order of `ids`, then `updatePorts` and
save. -/
def reorderConnections (oracle : String → SpawnOutcome) (startPort : Nat) (writeOk : Bool)
    (now : Nat) (s : MState) (ids : List String) : OpResult :=
  let existingIds := s.connections.map (fun c => c.id)
  let missingIds := ids.filter (fun id => !(existingIds.contains id))
  if !missingIds.isEmpty then
    ⟨s, 0, some "Connections not found"⟩
  else
    let reordered := ids.filterMap (fun id => s.connections.find? (fun c => c.id == id))
    let s1 := { s with connections := reordered }
    let r := updatePorts oracle startPort writeOk now s1
    ⟨saveState writeOk now r.1, r.2, none⟩

/-- The `close` handler installed by `setupProcessHandlers`: if the
connection is still Running/Starting, mark it Error, clear the handle and
start time, save, and (when `AUTO_RESTART_CONNECTIONS` is set) try to start
it again, logging any failure. -/
def handleProcessClose (autoRestart : Bool) (outcome : SpawnOutcome) (code : Int)
    (writeOk : Bool) (now : Nat) (s : MState) (id : String) : MState :=
  match getConnection s.connections id with
  | none => s
  | some c =>
      if c.status == ConnectionStatus.RUNNING || c.status == ConnectionStatus.STARTING then
        let setErr := fun (c2 : ConnectionInstance) =>
          { c2 with
            status := ConnectionStatus.ERROR,
            error := some ("Process exited with code " ++ toString code),
            process := none, connectionStartTime := none }
        let s1 := { s with
          connections := updateFirst (fun c2 => c2.id == id) setErr s.connections }
        let s2 := saveState writeOk now s1
        if autoRestart then (startConnection outcome writeOk now s2 id).state else s2
      else s

/-- The `error` handler installed by `setupProcessHandlers`. -/
def handleProcessError (msg : String) (writeOk : Bool) (now : Nat)
    (s : MState) (id : String) : MState :=
  match getConnection s.connections id with
  | none => s
  | some c =>
      if c.status == ConnectionStatus.RUNNING || c.status == ConnectionStatus.STARTING then
        let setErr := fun (c2 : ConnectionInstance) =>
          { c2 with
            status := ConnectionStatus.ERROR, error := some msg,
            process := none, connectionStartTime := none }
        saveState writeOk now { s with
          connections := updateFirst (fun c2 => c2.id == id) setErr s.connections }
      else s

/-- Error taxonomy of the port-update command described by the spec. -/
inductive UpdatePortError where
  | notFound
  | validation
  | conflict
deriving DecidableEq, Repr

/-- Modelled from the spec: `updatePort(id, newBasePort)` (§4.1) is absent
from src/src/connection-manager.ts; this definition follows the spec's words:
NotFoundError if unknown, ValidationError if `newBasePort` outside 1024–65535,
ConflictError if another instance already uses that base port; if the
instance is running, stop it, update the port, persist, then restart it;
if stopped, just update and persist. -/
def updatePort (outcome : SpawnOutcome) (writeOk : Bool) (now : Nat)
    (s : MState) (id : String) (newBasePort : Nat) : MState × Option UpdatePortError :=
  match getConnection s.connections id with
  | none => (s, some UpdatePortError.notFound)
  | some c =>
      if newBasePort < 1024 || 65535 < newBasePort then
        (s, some UpdatePortError.validation)
      else if s.connections.any (fun c2 => !(c2.id == id) && c2.port == newBasePort) then
        (s, some UpdatePortError.conflict)
      else if c.status == ConnectionStatus.RUNNING then
        let r := stopConnection writeOk now s id
        let setPort := fun (c2 : ConnectionInstance) => { c2 with port := newBasePort }
        let s2 := { r.state with
          connections := updateFirst (fun c2 => c2.id == id) setPort r.state.connections }
        let s3 := saveState writeOk now s2
        ((startConnection outcome writeOk now s3 id).state, none)
      else
        let setPort := fun (c2 : ConnectionInstance) => { c2 with port := newBasePort }
        let s2 := { s with
          connections := updateFirst (fun c2 => c2.id == id) setPort s.connections }
        (saveState writeOk now s2, none)

/-- The supervisor operations quantified over by the process-handle
invariant claim, with their external inputs. -/
inductive Op where
  | add (configs : List ConfigItem) (maxConnections startPort : Nat) (name : String)
      (writeOk : Bool) (now : Nat)
  | start (outcome : SpawnOutcome) (writeOk : Bool) (now : Nat) (id : String)
  | stop (writeOk : Bool) (now : Nat) (id : String)
  | restart (outcome : SpawnOutcome) (writeOk : Bool) (now : Nat) (id : String)
  | remove (oracle : String → SpawnOutcome) (startPort : Nat) (writeOk : Bool) (now : Nat)
      (id : String)
  | reorder (oracle : String → SpawnOutcome) (startPort : Nat) (writeOk : Bool) (now : Nat)
      (ids : List String)
  | procClose (autoRestart : Bool) (outcome : SpawnOutcome) (code : Int) (writeOk : Bool)
      (now : Nat) (id : String)
  | procError (msg : String) (writeOk : Bool) (now : Nat) (id : String)

/-- Apply one supervisor operation to the state. -/
def applyOp : Op → MState → MState
  | Op.add configs maxC startPort name wk now, s =>
      (addConnection configs maxC startPort name wk now s).1
  | Op.start o wk now id, s => (startConnection o wk now s id).state
  | Op.stop wk now id, s => (stopConnection wk now s id).state
  | Op.restart o wk now id, s => (restartConnection o wk now s id).state
  | Op.remove oracle sp wk now id, s => (removeConnection oracle sp wk now s id).state
  | Op.reorder oracle sp wk now ids, s => (reorderConnections oracle sp wk now s ids).state
  | Op.procClose ar o code wk now id, s => handleProcessClose ar o code wk now s id
  | Op.procError msg wk now id, s => handleProcessError msg wk now s id

/-- Per-connection process-handle invariant: the handle is non-null only
while Starting or Running. -/
def procInv (c : ConnectionInstance) : Prop :=
  c.process ≠ none →
    c.status = ConnectionStatus.STARTING ∨ c.status = ConnectionStatus.RUNNING

instance (c : ConnectionInstance) : Decidable (procInv c) := by
  unfold procInv; infer_instance

/-- The invariant over the whole connection list. -/
def listInv (conns : List ConnectionInstance) : Prop :=
  ∀ c ∈ conns, procInv c

instance (conns : List ConnectionInstance) : Decidable (listInv conns) := by
  unfold listInv; infer_instance

/-- A configuration with a single listener on port 443. -/
def sampleConfigOne : XrayConfig :=
  { inbounds := [⟨443, "inbound0"⟩], logLoglevel := none, payload := "outbounds" }

/-- A configuration with two listeners, on ports 443 and 8443. -/
def sampleConfigTwo : XrayConfig :=
  { inbounds := [⟨443, "inbound0"⟩, ⟨8443, "inbound1"⟩], logLoglevel := none,
    payload := "outbounds" }

/-- A stopped instance `a` on port 1080. -/
def sampleA : ConnectionInstance :=
  { id := "a", name := "a", config := sampleConfigOne, port := 1080, process := none,
    status := ConnectionStatus.STOPPED, connectionStartTime := none, error := none }

/-- A stopped instance `b` on port 1081. -/
def sampleB : ConnectionInstance :=
  { sampleA with id := "b", name := "b", port := 1081 }

/-- An instance whose configuration has the two listeners 443 and 8443 and
whose assigned port is 1080. -/
def sampleTwoListeners : ConnectionInstance :=
  { sampleA with id := "two", name := "two", config := sampleConfigTwo }

/-- A manager state holding the stopped instances `a` and `b`. -/
def sampleState : MState :=
  { connections := [sampleA, sampleB], lastUpdated := 0,
    stored := { connections := [], lastUpdated := 0 } }

/-- A spawn oracle for scenarios in which no spawn should happen. -/
def sampleOracle : String → SpawnOutcome := fun _ => SpawnOutcome.fail "unused"

/-- Instance `b` while Running, holding a live process handle. -/
def sampleRunningB : ConnectionInstance :=
  { sampleB with
    status := ConnectionStatus.RUNNING, process := some 9,
    connectionStartTime := some 1 }

/-- A manager state mixing the stopped instance `a` with the running `b`. -/
def sampleMixedState : MState :=
  { connections := [sampleA, sampleRunningB], lastUpdated := 0,
    stored := { connections := [], lastUpdated := 0 } }

/-- A spawn oracle whose every spawn succeeds with pid 7. -/
def sampleOkOracle : String → SpawnOutcome := fun _ => SpawnOutcome.ok 7

theorem saveState_connections (writeOk : Bool) (now : Nat) (s : MState) :
    (saveState writeOk now s).connections = s.connections := by
  cases writeOk <;> rfl

theorem getConnection_updateFirst (f : ConnectionInstance → ConnectionInstance)
    (id : String) (l : List ConnectionInstance) (hf : ∀ c, (f c).id = c.id) :
    getConnection (updateFirst (fun c => c.id == id) f l) id =
      (getConnection l id).map f := by
  induction l with
  | nil => rfl
  | cons c cs ih =>
      cases hc : (c.id == id) with
      | true =>
          simp only [getConnection, updateFirst, hc, if_true]
          simp [List.find?_cons, hf, hc]
      | false =>
          simp only [getConnection, updateFirst, hc, Bool.false_eq_true, if_false]
          simp only [List.find?_cons, hc]
          simpa [getConnection] using ih

theorem map_id_updateFirst (p : ConnectionInstance → Bool)
    (f : ConnectionInstance → ConnectionInstance) (l : List ConnectionInstance)
    (hf : ∀ c, (f c).id = c.id) :
    (updateFirst p f l).map (fun c => c.id) = l.map (fun c => c.id) := by
  induction l with
  | nil => rfl
  | cons c cs ih =>
      simp only [updateFirst]
      cases hp : p c <;> simp [hf, ih]

theorem listInv_updateFirst (p : ConnectionInstance → Bool)
    (f : ConnectionInstance → ConnectionInstance)
    (hf : ∀ c, procInv c → procInv (f c)) (l : List ConnectionInstance)
    (h : listInv l) : listInv (updateFirst p f l) := by
  induction l with
  | nil => exact h
  | cons c cs ih =>
      simp only [updateFirst]
      have hc := h c (List.mem_cons_self c cs)
      have hcs : listInv cs := fun x hx => h x (List.mem_cons_of_mem c hx)
      cases hp : p c with
      | true =>
          intro x hx
          rcases List.mem_cons.mp hx with hx | hx
          · exact hx ▸ hf c hc
          · exact hcs x hx
      | false =>
          intro x hx
          rcases List.mem_cons.mp hx with hx | hx
          · exact hx ▸ hc
          · exact ih hcs x hx

theorem listInv_map (f : ConnectionInstance → ConnectionInstance)
    (hf : ∀ c, procInv c → procInv (f c)) (l : List ConnectionInstance)
    (h : listInv l) : listInv (l.map f) := by
  intro x hx
  rcases List.mem_map.mp hx with ⟨c, hc, rfl⟩
  exact hf c (h c hc)

theorem listInv_assignPorts (startPort : Nat) :
    ∀ (n : Nat) (l : List ConnectionInstance), listInv l → listInv (assignPorts startPort n l)
  | _, [], h => h
  | n, c :: cs, h => by
      intro x hx
      rcases List.mem_cons.mp hx with hx | hx
      · subst hx
        exact h c (List.mem_cons_self c cs)
      · exact listInv_assignPorts startPort (n + 1) cs
          (fun y hy => h y (List.mem_cons_of_mem c hy)) x hx

theorem listInv_filter (p : ConnectionInstance → Bool) (l : List ConnectionInstance)
    (h : listInv l) : listInv (l.filter p) :=
  fun c hc => h c (List.mem_of_mem_filter hc)

theorem listInv_filterMap_find? (l : List ConnectionInstance) (h : listInv l)
    (ids : List String) :
    listInv (ids.filterMap (fun id => l.find? (fun c => c.id == id))) := by
  intro c hc
  rcases List.mem_filterMap.mp hc with ⟨id, _, hfind⟩
  exact h c (List.mem_of_find?_eq_some hfind)

theorem listInv_append_singleton (l : List ConnectionInstance) (c : ConnectionInstance)
    (h : listInv l) (hc : procInv c) : listInv (l ++ [c]) := by
  intro x hx
  rcases List.mem_append.mp hx with hx | hx
  · exact h x hx
  · rcases List.mem_singleton.mp hx with rfl
    exact hc

theorem procInv_of_process_none (c : ConnectionInstance) (h : c.process = none) :
    procInv c :=
  fun hne => absurd h hne

theorem procInv_stopRunningFields (c : ConnectionInstance) :
    procInv (stopRunningFields c) :=
  procInv_of_process_none _ rfl

theorem startConnection_inv (o : SpawnOutcome) (writeOk : Bool) (now : Nat)
    (s : MState) (id : String) (h : listInv s.connections) :
    listInv (startConnection o writeOk now s id).state.connections := by
  simp only [startConnection]
  split
  · exact h
  · split
    · exact h
    · have h1 : listInv (updateFirst (fun c2 => c2.id == id)
          (fun c2 => { c2 with status := ConnectionStatus.STARTING, error := none })
          s.connections) :=
        listInv_updateFirst _ _ (fun c _ => fun _ => Or.inl rfl) _ h
      split
      · rw [saveState_connections]
        exact listInv_updateFirst _ _ (fun c _ => procInv_of_process_none _ rfl) _ h1
      · split
        · rw [saveState_connections]
          exact listInv_updateFirst _ _ (fun c _ => fun _ => Or.inr rfl) _ h1
        · rw [saveState_connections]
          exact listInv_updateFirst _ _ (fun c _ => procInv_of_process_none _ rfl) _ h1

theorem stopConnection_inv (writeOk : Bool) (now : Nat) (s : MState) (id : String)
    (h : listInv s.connections) :
    listInv (stopConnection writeOk now s id).state.connections := by
  simp only [stopConnection]
  split
  · exact h
  · split
    · exact h
    · rw [saveState_connections]
      exact listInv_updateFirst _ _ (fun c _ => procInv_stopRunningFields c) _ h

theorem restartConnection_inv (o : SpawnOutcome) (writeOk : Bool) (now : Nat)
    (s : MState) (id : String) (h : listInv s.connections) :
    listInv (restartConnection o writeOk now s id).state.connections := by
  simp only [restartConnection]
  split
  · exact h
  · split
    · exact startConnection_inv _ _ _ _ _ (stopConnection_inv _ _ _ _ h)
    · exact stopConnection_inv _ _ _ _ h

theorem startMany_inv (oracle : String → SpawnOutcome) (writeOk : Bool) (now : Nat) :
    ∀ (ids : List String) (s : MState), listInv s.connections →
      listInv (startMany oracle writeOk now ids s).1.connections
  | [], _, h => h
  | id :: ids, s, h =>
      startMany_inv oracle writeOk now ids _
        (startConnection_inv (oracle id) writeOk now s id h)

theorem updatePorts_inv (oracle : String → SpawnOutcome) (startPort : Nat)
    (writeOk : Bool) (now : Nat) (s : MState) (h : listInv s.connections) :
    listInv (updatePorts oracle startPort writeOk now s).1.connections := by
  simp only [updatePorts]
  rw [saveState_connections]
  apply startMany_inv
  apply listInv_assignPorts
  apply listInv_map _ _ _ h
  intro c hc
  split
  · exact procInv_stopRunningFields c
  · exact hc

theorem removeConnection_inv (oracle : String → SpawnOutcome) (startPort : Nat)
    (writeOk : Bool) (now : Nat) (s : MState) (id : String) (h : listInv s.connections) :
    listInv (removeConnection oracle startPort writeOk now s id).state.connections := by
  simp only [removeConnection]
  split
  · exact h
  · rw [saveState_connections]
    apply updatePorts_inv
    apply listInv_filter
    split
    · exact stopConnection_inv _ _ _ _ h
    · exact h

theorem reorderConnections_inv (oracle : String → SpawnOutcome) (startPort : Nat)
    (writeOk : Bool) (now : Nat) (s : MState) (ids : List String)
    (h : listInv s.connections) :
    listInv (reorderConnections oracle startPort writeOk now s ids).state.connections := by
  simp only [reorderConnections]
  split
  · exact h
  · rw [saveState_connections]
    exact updatePorts_inv _ _ _ _ _ (listInv_filterMap_find? _ h ids)

theorem handleProcessClose_inv (autoRestart : Bool) (o : SpawnOutcome) (code : Int)
    (writeOk : Bool) (now : Nat) (s : MState) (id : String) (h : listInv s.connections) :
    listInv (handleProcessClose autoRestart o code writeOk now s id).connections := by
  simp only [handleProcessClose]
  split
  · exact h
  · split
    · have h1 : listInv (saveState writeOk now { s with
          connections := updateFirst (fun c2 => c2.id == id)
            (fun c2 => { c2 with
              status := ConnectionStatus.ERROR,
              error := some ("Process exited with code " ++ toString code),
              process := none, connectionStartTime := none })
            s.connections }).connections := by
        rw [saveState_connections]
        exact listInv_updateFirst _ _ (fun c _ => procInv_of_process_none _ rfl) _ h
      split
      · exact startConnection_inv _ _ _ _ _ h1
      · exact h1
    · exact h

theorem handleProcessError_inv (msg : String) (writeOk : Bool) (now : Nat)
    (s : MState) (id : String) (h : listInv s.connections) :
    listInv (handleProcessError msg writeOk now s id).connections := by
  simp only [handleProcessError]
  split
  · exact h
  · split
    · rw [saveState_connections]
      exact listInv_updateFirst _ _ (fun c _ => procInv_of_process_none _ rfl) _ h
    · exact h

theorem addConnection_inv (configs : List ConfigItem) (maxConnections startPort : Nat)
    (name : String) (writeOk : Bool) (now : Nat) (s : MState) (h : listInv s.connections) :
    listInv (addConnection configs maxConnections startPort name writeOk now s).1.connections := by
  simp only [addConnection]
  split
  · exact h
  · split
    · exact h
    · split
      · exact h
      · rw [saveState_connections]
        exact listInv_append_singleton _ _ h (procInv_of_process_none _ rfl)

/-- C9: every supervisor operation — add, start, stop, restart, remove,
reorder, and the asynchronous process close/error handlers — preserves the
invariant that an instance's process handle is non-null only while its
status is Starting or Running; in particular every transition into Stopped
or Error leaves the handle null. -/
theorem claimC9_processHandleInvariantPreserved (op : Op) (s : MState)
    (h : listInv s.connections) : listInv (applyOp op s).connections := by
  cases op with
  | add configs maxC sp name wk now => exact addConnection_inv configs maxC sp name wk now s h
  | start o wk now id => exact startConnection_inv o wk now s id h
  | stop wk now id => exact stopConnection_inv wk now s id h
  | restart o wk now id => exact restartConnection_inv o wk now s id h
  | remove oracle sp wk now id => exact removeConnection_inv oracle sp wk now s id h
  | reorder oracle sp wk now ids => exact reorderConnections_inv oracle sp wk now s ids h
  | procClose ar o code wk now id => exact handleProcessClose_inv ar o code wk now s id h
  | procError msg wk now id => exact handleProcessError_inv msg wk now s id h

/-- Witness for C9: the invariant holds of the sample state and is preserved
by a concrete successful start of instance `a`. -/
theorem claimC9_witness :
    listInv sampleState.connections ∧
    listInv (applyOp (Op.start (SpawnOutcome.ok 7) true 3 "a") sampleState).connections :=
  ⟨by decide, claimC9_processHandleInvariantPreserved
    (Op.start (SpawnOutcome.ok 7) true 3 "a") sampleState (by decide)⟩

/-- C8: `saveState` never raises to its caller — the write may fail
internally (`saveStateBody` errors when the write fails) but the caught
exception component is always `none` and the state is left unchanged on
failure — and the serialized projection depends only on id, displayName,
port, status, startedAt and lastError plus the timestamp: replacing the
config payload and the process handle of every instance leaves the
serialized document unchanged. -/
theorem claimC8_saveSwallowsFailuresAndStripsConfig :
    (∀ (writeOk : Bool) (now : Nat) (s : MState), (saveStateCaught writeOk now s).2 = none) ∧
    (∀ (now : Nat) (s : MState), saveStateBody false now s = Except.error "Failed to save state") ∧
    (∀ (now : Nat) (s : MState), saveState false now s = s) ∧
    (∀ (conns : List ConnectionInstance) (f : ConnectionInstance → XrayConfig)
        (g : ConnectionInstance → Option Nat) (now : Nat),
      serializeState (conns.map (fun c => { c with config := f c, process := g c })) now =
        serializeState conns now) := by
  refine ⟨fun writeOk now s => ?_, fun now s => rfl, fun now s => rfl, fun conns f g now => ?_⟩
  · cases writeOk <;> rfl
  · simp [serializeState, projectConnection]

/-- C10: `getConnectionStatus` returns Stopped for an id that is not in the
list — indistinguishable from a genuinely stopped instance — and returns the
instance's current status for a present id. -/
theorem claimC10_statusOfUnknownIdIsStopped (conns : List ConnectionInstance) (id : String) :
    ((∀ c ∈ conns, c.id ≠ id) → getConnectionStatus conns id = ConnectionStatus.STOPPED) ∧
    (∀ c, getConnection conns id = some c → getConnectionStatus conns id = c.status) := by
  constructor
  · intro h
    have hn : getConnection conns id = none := by
      apply List.find?_eq_none.mpr
      intro c hc
      simp [h c hc]
    simp [getConnectionStatus, hn]
  · intro c hc
    simp [getConnectionStatus, hc]

/-- Witness for C10: the unknown id `zz` reports Stopped on the sample
state, and the present id `a` reports its own status. -/
theorem claimC10_witness :
    getConnectionStatus sampleState.connections "zz" = ConnectionStatus.STOPPED ∧
    getConnectionStatus sampleState.connections "a" = sampleA.status :=
  ⟨(claimC10_statusOfUnknownIdIsStopped sampleState.connections "zz").1 (by decide),
   (claimC10_statusOfUnknownIdIsStopped sampleState.connections "a").2 sampleA (by decide)⟩

/-- C7 counterexample: the claim says `list()` omits the config payload from
every returned entry, but `getConnections` copies the config through
unchanged — two single-instance lists that differ only in the stored config
payload produce different snapshots, and the snapshot of `[sampleA]` carries
`sampleA`'s config verbatim. -/
theorem claimC7_counterexample :
    getConnections [sampleA] ≠
      getConnections [{ sampleA with config := sampleConfigTwo }] ∧
    (getConnections [sampleA]).map (fun c => c.config) = [sampleA.config] := by
  constructor
  · decide
  · decide

/-- C7 as amended: `list()` returns an ordered snapshot of the same length
in which every entry equals the stored instance with only the process handle
nulled out — the config payload is included unchanged, not omitted. -/
theorem claimC7_amended (conns : List ConnectionInstance) :
    (getConnections conns).length = conns.length ∧
    ∀ (i : Nat) (h : i < conns.length) (h2 : i < (getConnections conns).length),
      (getConnections conns).get ⟨i, h2⟩ = { conns.get ⟨i, h⟩ with process := none } := by
  constructor
  · simp [getConnections]
  · intro i h h2
    simp [getConnections]

/-- Witness for C7 as amended: on the sample two-instance state the snapshot
has length 2 and its first entry is instance `a` with the handle nulled. -/
theorem claimC7_witness :
    (getConnections sampleState.connections).length = sampleState.connections.length ∧
    (getConnections sampleState.connections).get ⟨0, by decide⟩ =
      { sampleState.connections.get ⟨0, by decide⟩ with process := none } :=
  ⟨(claimC7_amended sampleState.connections).1,
   (claimC7_amended sampleState.connections).2 0 (by decide) (by decide)⟩

/-- C1 counterexample: the claim says start's port derivation shifts every
listener by `basePort − originalPrimaryPort` (listeners [443, 8443] with
basePort 1080 would become [1080, 9080]), but `createTempConfig` rewrites
only `inbounds[0].port`: the derived listener ports for `sampleTwoListeners`
(listeners [443, 8443], assigned port 1080) are [1080, 8443], not
[1080, 9080]. -/
theorem claimC1_counterexample :
    (createTempConfig sampleTwoListeners).toOption.map
      (fun cfg => cfg.inbounds.map (fun i => i.port)) = some [1080, 8443] ∧
    some [1080, 8443] ≠ some ([1080, 9080] : List Nat) := by
  constructor
  · decide
  · decide

/-- C1 as amended: for every instance, the configuration derived by start
overwrites only the first listener's port with the instance's assigned port,
leaves every other listener's port (and payload) unchanged, forces
`log.loglevel` to `error`, and fails with the config error when the
configuration has zero listeners. -/
theorem claimC1_amended (c : ConnectionInstance) :
    (c.config.inbounds = [] →
      createTempConfig c = Except.error "No inbounds found in config") ∧
    (∀ (i : Inbound) (rest : List Inbound), c.config.inbounds = i :: rest →
      createTempConfig c = Except.ok { c.config with
        inbounds := { i with port := c.port } :: rest
        logLoglevel := some "error" }) := by
  constructor
  · intro h
    simp [createTempConfig, h]
  · intro i rest h
    simp [createTempConfig, h]

/-- Witness for C1 as amended: concrete evaluations on an instance with two
listeners and on one with an empty listener list. -/
theorem claimC1_witness :
    createTempConfig sampleTwoListeners = Except.ok { sampleTwoListeners.config with
      inbounds := { sampleConfigTwo.inbounds.get ⟨0, by decide⟩ with port := 1080 } ::
        [⟨8443, "inbound1"⟩]
      logLoglevel := some "error" } ∧
    createTempConfig { sampleA with config := { sampleConfigOne with inbounds := [] } } =
      Except.error "No inbounds found in config" :=
  ⟨(claimC1_amended sampleTwoListeners).2 (sampleConfigTwo.inbounds.get ⟨0, by decide⟩)
      [⟨8443, "inbound1"⟩] (by decide),
   (claimC1_amended { sampleA with config := { sampleConfigOne with inbounds := [] } }).1 rfl⟩

theorem startConnection_noop (o : SpawnOutcome) (writeOk : Bool) (now : Nat)
    (s : MState) (id : String) (c : ConnectionInstance)
    (hg : getConnection s.connections id = some c)
    (hs : c.status = ConnectionStatus.RUNNING ∨ c.status = ConnectionStatus.STARTING) :
    startConnection o writeOk now s id = ⟨s, 0, none⟩ := by
  simp only [startConnection]
  rw [hg]
  rcases hs with h | h <;> simp [h]

theorem startConnection_success (writeOk : Bool) (now : Nat) (s : MState) (id : String)
    (c : ConnectionInstance) (pid : Nat) (i : Inbound) (rest : List Inbound)
    (hg : getConnection s.connections id = some c)
    (hs : c.status = ConnectionStatus.STOPPED ∨ c.status = ConnectionStatus.ERROR)
    (hi : c.config.inbounds = i :: rest) :
    (startConnection (SpawnOutcome.ok pid) writeOk now s id).spawned = 1 ∧
    (startConnection (SpawnOutcome.ok pid) writeOk now s id).thrown = none ∧
    getConnection (startConnection (SpawnOutcome.ok pid) writeOk now s id).state.connections id =
      some { c with
        process := some pid, status := ConnectionStatus.RUNNING,
        connectionStartTime := some now, error := none } ∧
    (writeOk = true →
      (startConnection (SpawnOutcome.ok pid) writeOk now s id).state.stored =
        serializeState
          (startConnection (SpawnOutcome.ok pid) writeOk now s id).state.connections now) := by
  have hcond : (c.status == ConnectionStatus.RUNNING ||
      c.status == ConnectionStatus.STARTING) = false := by
    rcases hs with h | h <;> simp [h]
  have hcfg : createTempConfig c = Except.ok { c.config with
      inbounds := { i with port := c.port } :: rest
      logLoglevel := some "error" } := by
    simp [createTempConfig, hi]
  simp only [startConnection]
  rw [hg]
  simp only [hcond, Bool.false_eq_true, if_false, hcfg]
  refine ⟨by trivial, by trivial, ?_, ?_⟩
  · rw [saveState_connections, getConnection_updateFirst, getConnection_updateFirst, hg] <;>
      first
      | rfl
      | exact fun c2 => rfl
  · intro hw
    subst hw
    rfl

/-- C6: start is a successful no-op (zero spawns, state unchanged) when the
instance is already Starting or Running, and two consecutive start calls on
an instance that begins Stopped — the first succeeding — spawn exactly one
external process: the first call spawns once, the second spawns nothing and
changes nothing. -/
theorem claimC6_doubleStartSpawnsOnce (s : MState) (id : String) (c : ConnectionInstance)
    (hg : getConnection s.connections id = some c) :
    ((c.status = ConnectionStatus.RUNNING ∨ c.status = ConnectionStatus.STARTING) →
      ∀ (o : SpawnOutcome) (writeOk : Bool) (now : Nat),
        startConnection o writeOk now s id = ⟨s, 0, none⟩) ∧
    (c.status = ConnectionStatus.STOPPED →
      ∀ (pid : Nat) (i : Inbound) (rest : List Inbound), c.config.inbounds = i :: rest →
        ∀ (writeOk writeOk2 : Bool) (now now2 : Nat) (o2 : SpawnOutcome),
          (startConnection (SpawnOutcome.ok pid) writeOk now s id).spawned = 1 ∧
          startConnection o2 writeOk2 now2
              (startConnection (SpawnOutcome.ok pid) writeOk now s id).state id =
            ⟨(startConnection (SpawnOutcome.ok pid) writeOk now s id).state, 0, none⟩) := by
  constructor
  · intro hs o writeOk now
    exact startConnection_noop o writeOk now s id c hg hs
  · intro hs pid i rest hi writeOk writeOk2 now now2 o2
    obtain ⟨hspawn, _, hget, _⟩ :=
      startConnection_success writeOk now s id c pid i rest hg (Or.inl hs) hi
    refine ⟨hspawn, ?_⟩
    exact startConnection_noop o2 writeOk2 now2 _ id _ hget (Or.inl rfl)

/-- Witness for C6: on the sample state, starting the stopped instance `a`
twice spawns exactly one process, and the second call is a no-op. -/
theorem claimC6_witness :
    (startConnection (SpawnOutcome.ok 7) true 3 sampleState "a").spawned = 1 ∧
    startConnection (SpawnOutcome.fail "ignored") true 4
        (startConnection (SpawnOutcome.ok 7) true 3 sampleState "a").state "a" =
      ⟨(startConnection (SpawnOutcome.ok 7) true 3 sampleState "a").state, 0, none⟩ :=
  (claimC6_doubleStartSpawnsOnce sampleState "a" sampleA (by decide)).2 (by decide)
    7 ⟨443, "inbound0"⟩ [] (by decide) true true 3 4 (SpawnOutcome.fail "ignored")

theorem find?_of_mem_ids (l : List ConnectionInstance) (id : String)
    (h : id ∈ l.map (fun c => c.id)) :
    ∃ c, l.find? (fun c => c.id == id) = some c ∧ c.id = id := by
  induction l with
  | nil => simp at h
  | cons c cs ih =>
      by_cases hc : c.id = id
      · exact ⟨c, List.find?_cons_of_pos _ (by simp [hc]), hc⟩
      · rw [List.map_cons, List.mem_cons] at h
        rcases h with h1 | h1
        · exact absurd h1.symm hc
        · rcases ih h1 with ⟨c2, hfind, hid⟩
          exact ⟨c2, by rw [List.find?_cons_of_neg _ (by simp [hc])]; exact hfind, hid⟩

theorem filterMap_find?_map_id (l : List ConnectionInstance) (ids : List String)
    (h : ∀ id ∈ ids, id ∈ l.map (fun c => c.id)) :
    (ids.filterMap (fun id => l.find? (fun c => c.id == id))).map (fun c => c.id) = ids := by
  induction ids with
  | nil => rfl
  | cons id ids ih =>
      rcases find?_of_mem_ids l id (h id (List.mem_cons_self id ids)) with ⟨c, hfind, hid⟩
      rw [List.filterMap_cons, hfind, List.map_cons, hid,
        ih (fun x hx => h x (List.mem_cons_of_mem id hx))]

theorem assignPorts_length (startPort : Nat) :
    ∀ (n : Nat) (l : List ConnectionInstance), (assignPorts startPort n l).length = l.length
  | _, [] => rfl
  | n, _ :: cs => by simp [assignPorts, assignPorts_length startPort (n + 1) cs]

theorem assignPorts_get_port (startPort : Nat) :
    ∀ (l : List ConnectionInstance) (n i : Nat) (h : i < (assignPorts startPort n l).length),
      ((assignPorts startPort n l).get ⟨i, h⟩).port = startPort + n + i
  | [], _, i, h => absurd h (by simp [assignPorts])
  | c :: cs, n, 0, h => by simp [assignPorts]
  | c :: cs, n, i + 1, h => by
      have := assignPorts_get_port startPort cs (n + 1) i (by simpa [assignPorts] using h)
      simpa [assignPorts, Nat.add_assoc, Nat.add_comm, Nat.add_left_comm] using this

theorem assignPorts_erase_port (startPort : Nat) :
    ∀ (n : Nat) (l : List ConnectionInstance),
      (assignPorts startPort n l).map (fun c => { c with port := 0 }) =
        l.map (fun c => { c with port := 0 })
  | _, [] => rfl
  | n, c :: cs => by simp [assignPorts, assignPorts_erase_port startPort (n + 1) cs]

theorem assignPorts_map_id (startPort : Nat) :
    ∀ (n : Nat) (l : List ConnectionInstance),
      (assignPorts startPort n l).map (fun c => c.id) = l.map (fun c => c.id)
  | _, [] => rfl
  | n, c :: cs => by simp [assignPorts, assignPorts_map_id startPort (n + 1) cs]

theorem assignPorts_map_port (startPort : Nat) :
    ∀ (n : Nat) (l : List ConnectionInstance),
      (assignPorts startPort n l).map (fun c => c.port) =
        List.range' (startPort + n) l.length
  | _, [] => rfl
  | n, c :: cs => by
      simp [assignPorts, assignPorts_map_port startPort (n + 1) cs, List.range'_succ,
        Nat.add_assoc]

theorem startConnection_map_id (o : SpawnOutcome) (writeOk : Bool) (now : Nat)
    (s : MState) (id : String) :
    (startConnection o writeOk now s id).state.connections.map (fun c => c.id) =
      s.connections.map (fun c => c.id) := by
  simp only [startConnection]
  split
  · rfl
  · split
    · rfl
    · split
      · rw [saveState_connections, map_id_updateFirst, map_id_updateFirst] <;>
          exact fun c => rfl
      · split
        · rw [saveState_connections, map_id_updateFirst, map_id_updateFirst] <;>
            exact fun c => rfl
        · rw [saveState_connections, map_id_updateFirst, map_id_updateFirst] <;>
            exact fun c => rfl

theorem startMany_map_id (oracle : String → SpawnOutcome) (writeOk : Bool) (now : Nat) :
    ∀ (ids : List String) (s : MState),
      (startMany oracle writeOk now ids s).1.connections.map (fun c => c.id) =
        s.connections.map (fun c => c.id)
  | [], _ => rfl
  | id :: ids, s => by
      rw [startMany, startMany_map_id oracle writeOk now ids, startConnection_map_id]

theorem updatePorts_map_id (oracle : String → SpawnOutcome) (startPort : Nat)
    (writeOk : Bool) (now : Nat) (s : MState) :
    (updatePorts oracle startPort writeOk now s).1.connections.map (fun c => c.id) =
      s.connections.map (fun c => c.id) := by
  simp only [updatePorts]
  rw [saveState_connections, startMany_map_id, assignPorts_map_id, List.map_map]
  apply List.map_congr_left
  intro c _
  simp only [Function.comp]
  split <;> rfl

theorem updatePorts_no_running (oracle : String → SpawnOutcome) (startPort : Nat)
    (writeOk : Bool) (now : Nat) (s : MState)
    (h : ∀ c ∈ s.connections, c.status ≠ ConnectionStatus.RUNNING ∧
      c.status ≠ ConnectionStatus.STARTING) :
    (updatePorts oracle startPort writeOk now s).1.connections =
      assignPorts startPort 0 s.connections := by
  have hcond : ∀ c ∈ s.connections, (c.status == ConnectionStatus.RUNNING ||
      c.status == ConnectionStatus.STARTING) = false := by
    intro c hc
    rcases h c hc with ⟨h1, h2⟩
    simp [h1, h2]
  have hfilter : s.connections.filter (fun c => c.status == ConnectionStatus.RUNNING ||
      c.status == ConnectionStatus.STARTING) = [] := by
    apply List.filter_eq_nil_iff.mpr
    intro c hc
    simp [hcond c hc]
  have hmap : s.connections.map (fun c =>
      if c.status == ConnectionStatus.RUNNING || c.status == ConnectionStatus.STARTING then
        stopRunningFields c
      else c) = s.connections := by
    have h2 : s.connections.map (fun c =>
        if c.status == ConnectionStatus.RUNNING || c.status == ConnectionStatus.STARTING then
          stopRunningFields c
        else c) = s.connections.map (fun c => c) := by
      apply List.map_congr_left
      intro c hc
      simp [hcond c hc]
    simpa using h2
  simp only [updatePorts]
  rw [saveState_connections, hfilter, List.map_nil]
  rw [startMany, hmap]

theorem reorder_eq_of_missing (oracle : String → SpawnOutcome) (startPort : Nat)
    (writeOk : Bool) (now : Nat) (s : MState) (ids : List String) (id : String)
    (hmem : id ∈ ids) (hnot : id ∉ s.connections.map (fun c => c.id)) :
    reorderConnections oracle startPort writeOk now s ids =
      ⟨s, 0, some "Connections not found"⟩ := by
  have hin : id ∈ ids.filter (fun a => !((s.connections.map (fun c => c.id)).contains a)) :=
    List.mem_filter.mpr ⟨hmem, by simp [hnot]⟩
  have hne : (ids.filter (fun a =>
      !((s.connections.map (fun c => c.id)).contains a))).isEmpty = false :=
    List.isEmpty_eq_false.mpr (List.ne_nil_of_mem hin)
  simp only [reorderConnections]
  rw [hne]
  rfl

theorem reorder_eq_of_all_mem (oracle : String → SpawnOutcome) (startPort : Nat)
    (writeOk : Bool) (now : Nat) (s : MState) (ids : List String)
    (hall : ∀ id ∈ ids, id ∈ s.connections.map (fun c => c.id)) :
    reorderConnections oracle startPort writeOk now s ids =
      ⟨saveState writeOk now (updatePorts oracle startPort writeOk now { s with
          connections := ids.filterMap (fun id =>
            s.connections.find? (fun c => c.id == id)) }).1,
        (updatePorts oracle startPort writeOk now { s with
          connections := ids.filterMap (fun id =>
            s.connections.find? (fun c => c.id == id)) }).2, none⟩ := by
  have hmiss : ids.filter (fun a =>
      !((s.connections.map (fun c => c.id)).contains a)) = [] := by
    apply List.filter_eq_nil_iff.mpr
    intro a ha
    simp [hall a ha]
  simp only [reorderConnections]
  rw [hmiss]
  rfl

theorem get?_updateFirst_of_pred_false (p : ConnectionInstance → Bool)
    (f : ConnectionInstance → ConnectionInstance) :
    ∀ (l : List ConnectionInstance) (i : Nat) (c : ConnectionInstance),
      l.get? i = some c → p c = false → (updateFirst p f l).get? i = some c
  | [], i, c, h, _ => by simp at h
  | d :: ds, 0, c, h, hp => by
      rw [List.get?_cons_zero] at h
      cases h
      simp [updateFirst, hp]
  | d :: ds, i + 1, c, h, hp => by
      rw [List.get?_cons_succ] at h
      cases hd : p d with
      | true =>
          simp only [updateFirst, hd, if_true, List.get?_cons_succ]
          exact h
      | false =>
          simp only [updateFirst, hd, Bool.false_eq_true, if_false, List.get?_cons_succ]
          exact get?_updateFirst_of_pred_false p f ds i c h hp

theorem getConnection_map (f : ConnectionInstance → ConnectionInstance) (x : String) :
    ∀ (l : List ConnectionInstance), (∀ c, (f c).id = c.id) →
      getConnection (l.map f) x = (getConnection l x).map f
  | [], _ => rfl
  | c :: cs, hf => by
      cases hc : (c.id == x) with
      | true =>
          simp only [getConnection, List.map_cons]
          simp [List.find?_cons, hf, hc]
      | false =>
          simp only [getConnection, List.map_cons, List.find?_cons, hf, hc]
          simpa [getConnection] using getConnection_map f x cs hf

theorem getConnection_updateFirst_ne (f : ConnectionInstance → ConnectionInstance)
    (x y : String) :
    ∀ (l : List ConnectionInstance), x ≠ y → (∀ c, (f c).id = c.id) →
      getConnection (updateFirst (fun c => c.id == y) f l) x = getConnection l x
  | [], _, _ => rfl
  | c :: cs, hxy, hf => by
      cases hcy : (c.id == y) with
      | true =>
          have hcid : c.id = y := by simpa using hcy
          have hcx : (c.id == x) = false := by simp [hcid, Ne.symm hxy]
          simp only [updateFirst, hcy, if_true]
          simp [getConnection, List.find?_cons, hf, hcx]
      | false =>
          simp only [updateFirst, hcy, Bool.false_eq_true, if_false]
          cases hcx : (c.id == x) with
          | true => simp [getConnection, List.find?_cons, hcx]
          | false =>
              simp only [getConnection, List.find?_cons, hcx]
              simpa [getConnection] using getConnection_updateFirst_ne f x y cs hxy hf

theorem getConnection_assignPorts (sp : Nat) (x : String) :
    ∀ (l : List ConnectionInstance) (n : Nat) (e : ConnectionInstance),
      getConnection l x = some e →
      ∃ p, getConnection (assignPorts sp n l) x = some { e with port := p }
  | [], _, e, h => by simp [getConnection] at h
  | c :: cs, n, e, h => by
      cases hc : (c.id == x) with
      | true =>
          have he : c = e := by simpa [getConnection, List.find?_cons, hc] using h
          subst he
          exact ⟨sp + n, by simp [assignPorts, getConnection, List.find?_cons, hc]⟩
      | false =>
          have h2 : getConnection cs x = some e := by
            simpa [getConnection, List.find?_cons, hc] using h
          obtain ⟨p, hp⟩ := getConnection_assignPorts sp x cs (n + 1) e h2
          refine ⟨p, ?_⟩
          simpa [assignPorts, getConnection, List.find?_cons, hc] using hp

theorem assignPorts_get? (sp : Nat) :
    ∀ (l : List ConnectionInstance) (n i : Nat) (c : ConnectionInstance),
      l.get? i = some c →
      (assignPorts sp n l).get? i = some { c with port := sp + (n + i) }
  | [], _, i, c, h => by simp at h
  | d :: ds, n, 0, c, h => by
      rw [List.get?_cons_zero] at h
      cases h
      simp [assignPorts]
  | d :: ds, n, i + 1, c, h => by
      rw [List.get?_cons_succ] at h
      have h2 := assignPorts_get? sp ds (n + 1) i c h
      have harith : n + 1 + i = n + (i + 1) := by omega
      rw [harith] at h2
      simpa [assignPorts] using h2

theorem map_port_updateFirst (p : ConnectionInstance → Bool)
    (f : ConnectionInstance → ConnectionInstance) (l : List ConnectionInstance)
    (hf : ∀ c, (f c).port = c.port) :
    (updateFirst p f l).map (fun c => c.port) = l.map (fun c => c.port) := by
  induction l with
  | nil => rfl
  | cons c cs ih =>
      simp only [updateFirst]
      cases hp : p c <;> simp [hf, ih]

theorem startConnection_map_port (o : SpawnOutcome) (writeOk : Bool) (now : Nat)
    (s : MState) (id : String) :
    (startConnection o writeOk now s id).state.connections.map (fun c => c.port) =
      s.connections.map (fun c => c.port) := by
  simp only [startConnection]
  split
  · rfl
  · split
    · rfl
    · split
      · rw [saveState_connections, map_port_updateFirst, map_port_updateFirst] <;>
          exact fun c => rfl
      · split
        · rw [saveState_connections, map_port_updateFirst, map_port_updateFirst] <;>
            exact fun c => rfl
        · rw [saveState_connections, map_port_updateFirst, map_port_updateFirst] <;>
            exact fun c => rfl

theorem startMany_map_port (oracle : String → SpawnOutcome) (writeOk : Bool) (now : Nat) :
    ∀ (ids : List String) (s : MState),
      (startMany oracle writeOk now ids s).1.connections.map (fun c => c.port) =
        s.connections.map (fun c => c.port)
  | [], _ => rfl
  | id :: ids, s => by
      rw [startMany, startMany_map_port oracle writeOk now ids, startConnection_map_port]

theorem updatePorts_map_port (oracle : String → SpawnOutcome) (startPort : Nat)
    (writeOk : Bool) (now : Nat) (s : MState) :
    (updatePorts oracle startPort writeOk now s).1.connections.map (fun c => c.port) =
      List.range' startPort s.connections.length := by
  simp only [updatePorts]
  rw [saveState_connections, startMany_map_port, assignPorts_map_port]
  simp

theorem startConnection_get?_other (o : SpawnOutcome) (writeOk : Bool) (now : Nat)
    (s : MState) (y : String) (i : Nat) (c : ConnectionInstance)
    (h : s.connections.get? i = some c) (hid : (c.id == y) = false) :
    (startConnection o writeOk now s y).state.connections.get? i = some c := by
  simp only [startConnection]
  split
  · exact h
  · split
    · exact h
    · have h1 := get?_updateFirst_of_pred_false (fun c2 => c2.id == y)
        (fun c2 => { c2 with status := ConnectionStatus.STARTING, error := none })
        s.connections i c h hid
      split
      · rw [saveState_connections]
        exact get?_updateFirst_of_pred_false _ _ _ i c h1 hid
      · split
        · rw [saveState_connections]
          exact get?_updateFirst_of_pred_false _ _ _ i c h1 hid
        · rw [saveState_connections]
          exact get?_updateFirst_of_pred_false _ _ _ i c h1 hid

theorem startMany_get?_notin (oracle : String → SpawnOutcome) (writeOk : Bool) (now : Nat) :
    ∀ (ids : List String) (s : MState) (i : Nat) (c : ConnectionInstance),
      s.connections.get? i = some c → c.id ∉ ids →
      (startMany oracle writeOk now ids s).1.connections.get? i = some c
  | [], _, _, _, h, _ => h
  | y :: ids, s, i, c, h, hnot => by
      have hby : (c.id == y) = false := by
        simp only [beq_eq_false_iff_ne]
        intro he
        exact hnot (by rw [he]; exact List.mem_cons_self y ids)
      have h1 := startConnection_get?_other (oracle y) writeOk now s y i c h hby
      exact startMany_get?_notin oracle writeOk now ids _ i c h1
        (fun hm => hnot (List.mem_cons_of_mem y hm))

theorem startConnection_getConnection_other (o : SpawnOutcome) (writeOk : Bool)
    (now : Nat) (s : MState) (x y : String) (hxy : x ≠ y) :
    getConnection (startConnection o writeOk now s y).state.connections x =
      getConnection s.connections x := by
  simp only [startConnection]
  split
  · rfl
  · split
    · rfl
    · split
      · rw [saveState_connections, getConnection_updateFirst_ne,
          getConnection_updateFirst_ne] <;>
          first
          | rfl
          | exact hxy
          | exact fun c2 => rfl
      · split
        · rw [saveState_connections, getConnection_updateFirst_ne,
            getConnection_updateFirst_ne] <;>
            first
            | rfl
            | exact hxy
            | exact fun c2 => rfl
        · rw [saveState_connections, getConnection_updateFirst_ne,
            getConnection_updateFirst_ne] <;>
            first
            | rfl
            | exact hxy
            | exact fun c2 => rfl

theorem startMany_getConnection_notin (oracle : String → SpawnOutcome) (writeOk : Bool)
    (now : Nat) :
    ∀ (ids : List String) (s : MState) (x : String), x ∉ ids →
      getConnection (startMany oracle writeOk now ids s).1.connections x =
        getConnection s.connections x
  | [], _, _, _ => rfl
  | y :: ids, s, x, hnot => by
      have hxy : x ≠ y := fun he => hnot (by rw [he]; exact List.mem_cons_self y ids)
      rw [startMany, startMany_getConnection_notin oracle writeOk now ids _ x
        (fun hm => hnot (List.mem_cons_of_mem y hm))]
      exact startConnection_getConnection_other (oracle y) writeOk now s x y hxy

theorem startMany_append (oracle : String → SpawnOutcome) (writeOk : Bool) (now : Nat) :
    ∀ (ids1 ids2 : List String) (s : MState),
      (startMany oracle writeOk now (ids1 ++ ids2) s).1 =
        (startMany oracle writeOk now ids2 (startMany oracle writeOk now ids1 s).1).1
  | [], _, _ => rfl
  | y :: ids1, ids2, s => by
      simp only [List.cons_append, startMany]
      exact startMany_append oracle writeOk now ids1 ids2 _

theorem updatePorts_frame_stopped (oracle : String → SpawnOutcome) (sp : Nat)
    (writeOk : Bool) (now : Nat) (s : MState) (i : Nat) (c : ConnectionInstance)
    (hnd : (s.connections.map (fun c => c.id)).Nodup)
    (hg : s.connections.get? i = some c)
    (h1 : c.status ≠ ConnectionStatus.RUNNING)
    (h2 : c.status ≠ ConnectionStatus.STARTING) :
    (updatePorts oracle sp writeOk now s).1.connections.get? i =
      some { c with port := sp + i } := by
  have hpred : (c.status == ConnectionStatus.RUNNING ||
      c.status == ConnectionStatus.STARTING) = false := by simp [h1, h2]
  have hg1 : (s.connections.map (fun d =>
      if d.status == ConnectionStatus.RUNNING || d.status == ConnectionStatus.STARTING then
        stopRunningFields d
      else d)).get? i = some c := by
    rw [List.get?_map, hg]
    have hnc : ¬((c.status == ConnectionStatus.RUNNING ||
        c.status == ConnectionStatus.STARTING) = true) := by
      rw [hpred]
      exact Bool.false_ne_true
    simp only [Option.map_some']
    rw [if_neg hnc]
  have hg2 := assignPorts_get? sp _ 0 i c hg1
  rw [Nat.zero_add] at hg2
  have hcid : c.id ∉ (s.connections.filter (fun d =>
      d.status == ConnectionStatus.RUNNING ||
      d.status == ConnectionStatus.STARTING)).map (fun d => d.id) := by
    intro hmem
    rcases List.mem_map.mp hmem with ⟨d, hdf, hdid⟩
    have hd := List.mem_filter.mp hdf
    have hdc : d = c := List.inj_on_of_nodup_map hnd hd.1 (List.get?_mem hg) hdid
    rw [hdc, hpred] at hd
    exact absurd hd.2 (by simp)
  simp only [updatePorts]
  rw [saveState_connections]
  exact startMany_get?_notin oracle writeOk now _ _ i _ hg2 hcid

theorem updatePorts_restartsRunning (oracle : String → SpawnOutcome) (sp : Nat)
    (writeOk : Bool) (now : Nat) (s : MState) (x : String) (c : ConnectionInstance)
    (pid : Nat)
    (hnd : (s.connections.map (fun c => c.id)).Nodup)
    (hfind : getConnection s.connections x = some c)
    (hrun : c.status = ConnectionStatus.RUNNING ∨ c.status = ConnectionStatus.STARTING)
    (ho : oracle x = SpawnOutcome.ok pid)
    (hinb : c.config.inbounds ≠ []) :
    ∃ d, getConnection (updatePorts oracle sp writeOk now s).1.connections x = some d ∧
      d.id = c.id ∧ d.name = c.name ∧ d.config = c.config ∧
      d.status = ConnectionStatus.RUNNING ∧ d.process = some pid ∧
      d.connectionStartTime = some now ∧ d.error = none := by
  have hpred : (c.status == ConnectionStatus.RUNNING ||
      c.status == ConnectionStatus.STARTING) = true := by
    rcases hrun with h | h <;> simp [h]
  have hcx : c.id = x := by simpa using List.find?_some hfind
  have hcmem : c ∈ s.connections := List.mem_of_find?_eq_some hfind
  have hxmem : x ∈ (s.connections.filter (fun d =>
      d.status == ConnectionStatus.RUNNING ||
      d.status == ConnectionStatus.STARTING)).map (fun d => d.id) :=
    List.mem_map.mpr ⟨c, List.mem_filter.mpr ⟨hcmem, hpred⟩, hcx⟩
  have hndrun : ((s.connections.filter (fun d =>
      d.status == ConnectionStatus.RUNNING ||
      d.status == ConnectionStatus.STARTING)).map (fun d => d.id)).Nodup :=
    hnd.sublist ((List.filter_sublist s.connections).map (fun d => d.id))
  obtain ⟨l1, l2, hsplit⟩ := List.append_of_mem hxmem
  have hndsplit : (l1 ++ x :: l2).Nodup := hsplit ▸ hndrun
  have hx1 : x ∉ l1 := fun hx =>
    (List.nodup_append.mp hndsplit).2.2 hx (List.mem_cons_self x l2)
  have hx2 : x ∉ l2 := (List.nodup_cons.mp (List.nodup_append.mp hndsplit).2.1).1
  have hg1 : getConnection (s.connections.map (fun d =>
      if d.status == ConnectionStatus.RUNNING || d.status == ConnectionStatus.STARTING then
        stopRunningFields d
      else d)) x = some (stopRunningFields c) := by
    rw [getConnection_map _ x s.connections (fun d => by
      by_cases hd : (d.status == ConnectionStatus.RUNNING ||
          d.status == ConnectionStatus.STARTING) = true
      · rw [if_pos hd]
        rfl
      · rw [if_neg hd]), hfind]
    simp only [Option.map_some']
    rw [if_pos hpred]
  obtain ⟨p, hg2⟩ := getConnection_assignPorts sp x _ 0 (stopRunningFields c) hg1
  obtain ⟨i0, rest, hir⟩ := List.exists_cons_of_ne_nil hinb
  simp only [updatePorts]
  rw [saveState_connections, hsplit, startMany_append]
  have hg3 : getConnection (startMany oracle writeOk now l1 { s with
      connections := assignPorts sp 0 (s.connections.map (fun d =>
        if d.status == ConnectionStatus.RUNNING ||
            d.status == ConnectionStatus.STARTING then
          stopRunningFields d
        else d)) }).1.connections x = some { stopRunningFields c with port := p } := by
    rw [startMany_getConnection_notin oracle writeOk now l1 _ x hx1]
    exact hg2
  obtain ⟨-, -, hg4, -⟩ := startConnection_success writeOk now _ x
    { stopRunningFields c with port := p } pid i0 rest hg3 (Or.inl rfl) hir
  refine ⟨{ stopRunningFields c with
      port := p, process := some pid,
      status := ConnectionStatus.RUNNING, connectionStartTime := some now,
      error := none }, ?_, rfl, rfl, rfl, rfl, rfl, rfl, rfl⟩
  simp only [startMany]
  rw [ho, startMany_getConnection_notin oracle writeOk now l2 _ x hx2]
  exact hg4

/-- C4 counterexample: the claim says reorder rejects any input whose id
multiset is not exactly the current id set, but an input that merely omits
an existing id is accepted: on the two-instance sample state,
`reorder ["a"]` raises nothing and silently drops instance `b`, changing
the list. -/
theorem claimC4_counterexample :
    (reorderConnections sampleOracle 1080 true 5 sampleState ["a"]).thrown = none ∧
    (reorderConnections sampleOracle 1080 true 5 sampleState ["a"]).state.connections.map
      (fun c => c.id) = ["a"] ∧
    sampleState.connections.map (fun c => c.id) = ["a", "b"] := by
  refine ⟨by decide, by decide, by decide⟩

/-- C4 as amended: reorder fails — with the not-found validation error and
the state left entirely unchanged — exactly when the input contains an id
that is not in the current list; when every input id exists, it succeeds and
replaces the list so that its ids match the input sequence exactly, silently
dropping any current instance whose id is absent from the input rather than
rejecting such inputs. -/
theorem claimC4_reorderValidatesOnlyUnknownIds (oracle : String → SpawnOutcome)
    (startPort : Nat) (writeOk : Bool) (now : Nat) (s : MState) (ids : List String) :
    ((∃ id ∈ ids, id ∉ s.connections.map (fun c => c.id)) →
      reorderConnections oracle startPort writeOk now s ids =
        ⟨s, 0, some "Connections not found"⟩) ∧
    ((∀ id ∈ ids, id ∈ s.connections.map (fun c => c.id)) →
      (reorderConnections oracle startPort writeOk now s ids).thrown = none ∧
      (reorderConnections oracle startPort writeOk now s ids).state.connections.map
        (fun c => c.id) = ids) := by
  constructor
  · intro h
    rcases h with ⟨id, hmem, hnot⟩
    exact reorder_eq_of_missing oracle startPort writeOk now s ids id hmem hnot
  · intro hall
    rw [reorder_eq_of_all_mem oracle startPort writeOk now s ids hall]
    refine ⟨rfl, ?_⟩
    show (saveState writeOk now _).connections.map (fun c => c.id) = ids
    rw [saveState_connections, updatePorts_map_id]
    exact filterMap_find?_map_id s.connections ids hall

/-- Witness for C4: applying the amended theorem at the sample state — the
input `["zz"]` (unknown id) fails leaving the state unchanged, and the
full permutation `["b", "a"]` succeeds with exactly those ids. -/
theorem claimC4_witness :
    reorderConnections sampleOracle 1080 true 5 sampleState ["zz"] =
      ⟨sampleState, 0, some "Connections not found"⟩ ∧
    (reorderConnections sampleOracle 1080 true 5 sampleState ["b", "a"]).state.connections.map
      (fun c => c.id) = ["b", "a"] :=
  ⟨(claimC4_reorderValidatesOnlyUnknownIds sampleOracle 1080 true 5 sampleState ["zz"]).1
      ⟨"zz", by decide, by decide⟩,
   ((claimC4_reorderValidatesOnlyUnknownIds sampleOracle 1080 true 5 sampleState
      ["b", "a"]).2 (by decide)).2⟩

/-- C2 counterexample: the claim says reorder leaves every instance's port
unchanged, but reordering the sample state to `["b", "a"]` reassigns ports
positionally: instance `b` had port 1081 and ends up with port 1080. -/
theorem claimC2_counterexample :
    (getConnection (reorderConnections sampleOracle 1080 true 5 sampleState
      ["b", "a"]).state.connections "b").map (fun c => c.port) = some 1080 ∧
    (getConnection sampleState.connections "b").map (fun c => c.port) = some 1081 ∧
    some (1080 : Nat) ≠ some 1081 := by
  refine ⟨by decide, by decide, by decide⟩

/-- C2 as amended: reorder does change ports. For a duplicate-free input
covering only existing ids it succeeds, replaces the order to match the
input, and renumbers the ports to the consecutive range starting at
`CONNECTION_START_PORT`; an instance that is not Running or Starting keeps
every field other than `port` unchanged (even when other instances in the
list are running), while each Running/Starting instance is stopped and, when
its spawn succeeds, restarted into Running with a fresh process handle and
its identity, display name and config intact. -/
theorem claimC2_reorderReassignsPortsPositionally (oracle : String → SpawnOutcome)
    (startPort : Nat) (writeOk : Bool) (now : Nat) (s : MState) (ids : List String)
    (hnd : ids.Nodup)
    (hall : ∀ id ∈ ids, id ∈ s.connections.map (fun c => c.id)) :
    (reorderConnections oracle startPort writeOk now s ids).thrown = none ∧
    (reorderConnections oracle startPort writeOk now s ids).state.connections.map
        (fun c => c.id) = ids ∧
    (reorderConnections oracle startPort writeOk now s ids).state.connections.map
        (fun c => c.port) =
      List.range' startPort
        ((ids.filterMap (fun id => s.connections.find? (fun c => c.id == id))).length) ∧
    (∀ (i : Nat) (c : ConnectionInstance),
      (ids.filterMap (fun id => s.connections.find? (fun c => c.id == id))).get? i =
        some c →
      c.status ≠ ConnectionStatus.RUNNING → c.status ≠ ConnectionStatus.STARTING →
      (reorderConnections oracle startPort writeOk now s ids).state.connections.get? i =
        some { c with port := startPort + i }) ∧
    (∀ (x : String) (c : ConnectionInstance) (pid : Nat),
      getConnection (ids.filterMap (fun id =>
        s.connections.find? (fun c => c.id == id))) x = some c →
      (c.status = ConnectionStatus.RUNNING ∨ c.status = ConnectionStatus.STARTING) →
      oracle x = SpawnOutcome.ok pid → c.config.inbounds ≠ [] →
      ∃ d, getConnection (reorderConnections oracle startPort writeOk now
          s ids).state.connections x = some d ∧
        d.id = c.id ∧ d.name = c.name ∧ d.config = c.config ∧
        d.status = ConnectionStatus.RUNNING ∧ d.process = some pid ∧
        d.connectionStartTime = some now ∧ d.error = none) := by
  have hsel_ids : (ids.filterMap (fun id =>
      s.connections.find? (fun c => c.id == id))).map (fun c => c.id) = ids :=
    filterMap_find?_map_id s.connections ids hall
  have hnd2 : ((ids.filterMap (fun id =>
      s.connections.find? (fun c => c.id == id))).map (fun c => c.id)).Nodup := by
    rw [hsel_ids]
    exact hnd
  rw [reorder_eq_of_all_mem oracle startPort writeOk now s ids hall]
  refine ⟨rfl, ?_, ?_, ?_, ?_⟩
  · show (saveState writeOk now _).connections.map _ = _
    rw [saveState_connections, updatePorts_map_id]
    exact hsel_ids
  · show (saveState writeOk now _).connections.map _ = _
    rw [saveState_connections, updatePorts_map_port]
  · intro i c hg h1 h2
    show (saveState writeOk now _).connections.get? i = _
    rw [saveState_connections]
    exact updatePorts_frame_stopped oracle startPort writeOk now _ i c hnd2 hg h1 h2
  · intro x c pid hg hrun ho hinb
    show ∃ d, getConnection (saveState writeOk now _).connections x = some d ∧ _
    rw [saveState_connections]
    exact updatePorts_restartsRunning oracle startPort writeOk now _ x c pid hnd2 hg
      hrun ho hinb

/-- Witness for C2 as amended: reordering the mixed sample state (stopped
`a`, running `b`) to `["b", "a"]` succeeds; the stopped `a` ends at index 1
unchanged except for its renumbered port 1081, and the running `b` is
restarted into Running with the fresh pid 7. -/
theorem claimC2_witness :
    (reorderConnections sampleOkOracle 1080 true 5 sampleMixedState ["b", "a"]).thrown =
      none ∧
    (reorderConnections sampleOkOracle 1080 true 5 sampleMixedState
        ["b", "a"]).state.connections.get? 1 = some { sampleA with port := 1081 } ∧
    ∃ d, getConnection (reorderConnections sampleOkOracle 1080 true 5 sampleMixedState
        ["b", "a"]).state.connections "b" = some d ∧
      d.id = sampleRunningB.id ∧ d.name = sampleRunningB.name ∧
      d.config = sampleRunningB.config ∧ d.status = ConnectionStatus.RUNNING ∧
      d.process = some 7 ∧ d.connectionStartTime = some 5 ∧ d.error = none := by
  obtain ⟨h1, -, -, h4, h5⟩ := claimC2_reorderReassignsPortsPositionally sampleOkOracle
    1080 true 5 sampleMixedState ["b", "a"] (by decide) (by decide)
  refine ⟨h1, ?_, ?_⟩
  · exact h4 1 sampleA (by decide) (by decide) (by decide)
  · exact h5 "b" sampleRunningB 7 (by decide) (Or.inl (by decide)) rfl (by decide)

theorem getConnection_port_startConnection (o : SpawnOutcome) (writeOk : Bool)
    (now : Nat) (s : MState) (id : String) :
    (getConnection (startConnection o writeOk now s id).state.connections id).map
        (fun c => c.port) =
      (getConnection s.connections id).map (fun c => c.port) := by
  simp only [startConnection]
  split
  · rfl
  next c hc =>
    split
    · rfl
    · split
      · rw [saveState_connections, getConnection_updateFirst, getConnection_updateFirst,
          hc] <;>
          first
          | rfl
          | exact fun c2 => rfl
      · split
        · rw [saveState_connections, getConnection_updateFirst, getConnection_updateFirst,
            hc] <;>
            first
            | rfl
            | exact fun c2 => rfl
        · rw [saveState_connections, getConnection_updateFirst, getConnection_updateFirst,
            hc] <;>
            first
            | rfl
            | exact fun c2 => rfl

/-- C5: add(name) fails with the duplicate error when an instance with id
`name` exists, fails with the capacity error (never appending) when the list
is at the configured maximum, fails with the not-found error when the
Configuration Store holds no configuration named `name`, and otherwise
appends exactly one new Stopped instance carrying a copy of the stored
configuration and the default next sequential port slot
(`CONNECTION_START_PORT + length`), then persists. The checks apply in that
order, and every failure leaves the state unchanged. -/
theorem claimC5_addChecksThenAppends (configs : List ConfigItem)
    (maxConnections startPort : Nat) (name : String) (writeOk : Bool) (now : Nat)
    (s : MState) :
    ((∃ c ∈ s.connections, c.id = name) →
      addConnection configs maxConnections startPort name writeOk now s =
        (s, some ("Connection \"" ++ name ++ "\" already exists in the list"))) ∧
    ((∀ c ∈ s.connections, c.id ≠ name) → maxConnections ≤ s.connections.length →
      addConnection configs maxConnections startPort name writeOk now s =
        (s, some "Maximum number of connections reached")) ∧
    ((∀ c ∈ s.connections, c.id ≠ name) → s.connections.length < maxConnections →
      configs.find? (fun c => c.name == name) = none →
      addConnection configs maxConnections startPort name writeOk now s =
        (s, some ("Config \"" ++ name ++ "\" not found"))) ∧
    (∀ configItem, (∀ c ∈ s.connections, c.id ≠ name) →
      s.connections.length < maxConnections →
      configs.find? (fun c => c.name == name) = some configItem →
      addConnection configs maxConnections startPort name writeOk now s =
        (saveState writeOk now { s with connections := s.connections ++
          [{ id := name, name := name, config := configItem.config,
             port := startPort + s.connections.length, process := none,
             status := ConnectionStatus.STOPPED, connectionStartTime := none,
             error := none }] }, none)) := by
  refine ⟨?_, ?_, ?_, ?_⟩
  · rintro ⟨c, hc, hceq⟩
    have hany : s.connections.any (fun c => c.id == name) = true :=
      List.any_eq_true.mpr ⟨c, hc, by simp [hceq]⟩
    simp [addConnection, hany]
  · intro hdup hcap
    have hany : s.connections.any (fun c => c.id == name) = false := by
      simp only [List.any_eq_false]
      intro c hc
      simp [hdup c hc]
    simp [addConnection, hany, hcap]
  · intro hdup hlen hfind
    have hany : s.connections.any (fun c => c.id == name) = false := by
      simp only [List.any_eq_false]
      intro c hc
      simp [hdup c hc]
    simp [addConnection, hany, Nat.not_le.mpr hlen, hfind]
  · intro configItem hdup hlen hfind
    have hany : s.connections.any (fun c => c.id == name) = false := by
      simp only [List.any_eq_false]
      intro c hc
      simp [hdup c hc]
    simp [addConnection, hany, Nat.not_le.mpr hlen, hfind]

/-- Witness for C5: adding the stored configuration `c` to the sample state
appends a Stopped instance on port 1082 and persists, while adding the
duplicate `a` fails with the duplicate error leaving the state unchanged. -/
theorem claimC5_witness :
    addConnection [⟨"c", sampleConfigOne⟩] 10 1080 "c" true 9 sampleState =
      (saveState true 9 { sampleState with connections := sampleState.connections ++
        [{ id := "c", name := "c", config := sampleConfigOne,
           port := 1080 + sampleState.connections.length, process := none,
           status := ConnectionStatus.STOPPED, connectionStartTime := none,
           error := none }] }, none) ∧
    addConnection [⟨"c", sampleConfigOne⟩] 10 1080 "a" true 9 sampleState =
      (sampleState, some ("Connection \"" ++ "a" ++ "\" already exists in the list")) :=
  ⟨(claimC5_addChecksThenAppends [⟨"c", sampleConfigOne⟩] 10 1080 "c" true 9
      sampleState).2.2.2 ⟨"c", sampleConfigOne⟩ (by decide) (by decide) (by decide),
   (claimC5_addChecksThenAppends [⟨"c", sampleConfigOne⟩] 10 1080 "a" true 9
      sampleState).1 ⟨sampleA, by decide, by decide⟩⟩

/-- C3: the spec-modelled updatePort(id, newBasePort) fails with
NotFoundError for an unknown id, with ValidationError for any newBasePort
outside 1024–65535, and with ConflictError — leaving the whole state, hence
both instances' ports, unchanged — whenever another instance already uses
that port; on success it raises nothing, the instance's port becomes
newBasePort, and the change is persisted: a non-running instance is updated
in place and saved (the stored document reflects the new port), while a
running instance is stopped, updated, saved and then restarted — on a
successful spawn it is Running again with the new port, and the final state
was saved. -/
theorem claimC3_updatePortContract (o : SpawnOutcome) (writeOk : Bool) (now : Nat)
    (s : MState) (id : String) (newBasePort : Nat) :
    (getConnection s.connections id = none →
      updatePort o writeOk now s id newBasePort = (s, some UpdatePortError.notFound)) ∧
    (∀ c, getConnection s.connections id = some c →
      (newBasePort < 1024 ∨ 65535 < newBasePort) →
      updatePort o writeOk now s id newBasePort = (s, some UpdatePortError.validation)) ∧
    (∀ c, getConnection s.connections id = some c →
      1024 ≤ newBasePort → newBasePort ≤ 65535 →
      (∃ c2 ∈ s.connections, c2.id ≠ id ∧ c2.port = newBasePort) →
      updatePort o writeOk now s id newBasePort = (s, some UpdatePortError.conflict)) ∧
    (∀ c, getConnection s.connections id = some c →
      1024 ≤ newBasePort → newBasePort ≤ 65535 →
      (∀ c2 ∈ s.connections, c2.id = id ∨ c2.port ≠ newBasePort) →
      (updatePort o writeOk now s id newBasePort).2 = none ∧
      (getConnection (updatePort o writeOk now s id newBasePort).1.connections id).map
        (fun c2 => c2.port) = some newBasePort) ∧
    (∀ c, getConnection s.connections id = some c →
      1024 ≤ newBasePort → newBasePort ≤ 65535 →
      (∀ c2 ∈ s.connections, c2.id = id ∨ c2.port ≠ newBasePort) →
      c.status ≠ ConnectionStatus.RUNNING →
      updatePort o writeOk now s id newBasePort =
        (saveState writeOk now { s with
          connections := updateFirst (fun c2 => c2.id == id)
            (fun c2 => { c2 with port := newBasePort }) s.connections }, none) ∧
      (writeOk = true →
        (updatePort o writeOk now s id newBasePort).1.stored =
          serializeState (updateFirst (fun c2 => c2.id == id)
            (fun c2 => { c2 with port := newBasePort }) s.connections) now)) ∧
    (∀ (c : ConnectionInstance) (pid : Nat) (i : Inbound) (rest : List Inbound),
      getConnection s.connections id = some c →
      1024 ≤ newBasePort → newBasePort ≤ 65535 →
      (∀ c2 ∈ s.connections, c2.id = id ∨ c2.port ≠ newBasePort) →
      c.status = ConnectionStatus.RUNNING →
      (updatePort o writeOk now s id newBasePort =
        ((startConnection o writeOk now (saveState writeOk now
          { (stopConnection writeOk now s id).state with
            connections := updateFirst (fun c2 => c2.id == id)
              (fun c2 => { c2 with port := newBasePort })
              (stopConnection writeOk now s id).state.connections }) id).state, none)) ∧
      (o = SpawnOutcome.ok pid → c.config.inbounds = i :: rest →
        getConnection (updatePort o writeOk now s id newBasePort).1.connections id =
          some { c with
            port := newBasePort, process := some pid,
            status := ConnectionStatus.RUNNING, connectionStartTime := some now,
            error := none }) ∧
      (writeOk = true → o = SpawnOutcome.ok pid → c.config.inbounds = i :: rest →
        (updatePort o writeOk now s id newBasePort).1.stored =
          serializeState (updatePort o writeOk now s id newBasePort).1.connections
            now)) := by
  refine ⟨?_, ?_, ?_, ?_, ?_, ?_⟩
  · intro h
    simp [updatePort, h]
  · intro c hc hrange
    simp only [updatePort]
    rw [hc]
    have hval : (newBasePort < 1024 || 65535 < newBasePort) = true := by
      rcases hrange with h | h <;> simp [h]
    simp [hval]
  · intro c hc h1 h2 hconf
    simp only [updatePort]
    rw [hc]
    have hval : (newBasePort < 1024 || 65535 < newBasePort) = false := by
      simp [Nat.not_lt.mpr h1, Nat.not_lt.mpr h2]
    rcases hconf with ⟨c2, hc2, hne, hport⟩
    have hany : s.connections.any
        (fun c2 => !(c2.id == id) && c2.port == newBasePort) = true :=
      List.any_eq_true.mpr ⟨c2, hc2, by simp [hne, hport]⟩
    simp [hval, hany]
  · intro c hc h1 h2 hno
    have hval : (newBasePort < 1024 || 65535 < newBasePort) = false := by
      simp [Nat.not_lt.mpr h1, Nat.not_lt.mpr h2]
    have hany : s.connections.any
        (fun c2 => !(c2.id == id) && c2.port == newBasePort) = false := by
      simp only [List.any_eq_false]
      intro c2 hc2
      rcases hno c2 hc2 with h | h <;> simp [h]
    simp only [updatePort]
    rw [hc]
    simp only [hval, Bool.false_eq_true, if_false, hany]
    by_cases hrun : c.status = ConnectionStatus.RUNNING
    · have hbeq : (c.status == ConnectionStatus.RUNNING) = true := by simp [hrun]
      simp only [hbeq, if_true]
      have hstop2 : getConnection (stopConnection writeOk now s id).state.connections id =
          some (stopRunningFields c) := by
        simp only [stopConnection]
        rw [hc]
        have hns : (c.status == ConnectionStatus.STOPPED) = false := by simp [hrun]
        simp only [hns, Bool.false_eq_true, if_false]
        rw [saveState_connections, getConnection_updateFirst, hc] <;>
          first
          | rfl
          | exact fun c2 => rfl
      refine ⟨by trivial, ?_⟩
      rw [getConnection_port_startConnection, saveState_connections,
        getConnection_updateFirst, hstop2] <;>
        first
        | rfl
        | exact fun c2 => rfl
    · have hbeq : (c.status == ConnectionStatus.RUNNING) = false := by simp [hrun]
      simp only [hbeq, Bool.false_eq_true, if_false]
      refine ⟨by trivial, ?_⟩
      rw [saveState_connections, getConnection_updateFirst, hc] <;>
        first
        | rfl
        | exact fun c2 => rfl
  · intro c hc h1 h2 hno hrunne
    have hval : (newBasePort < 1024 || 65535 < newBasePort) = false := by
      simp [Nat.not_lt.mpr h1, Nat.not_lt.mpr h2]
    have hany : s.connections.any
        (fun c2 => !(c2.id == id) && c2.port == newBasePort) = false := by
      simp only [List.any_eq_false]
      intro c2 hc2
      rcases hno c2 hc2 with h | h <;> simp [h]
    have hbeq : (c.status == ConnectionStatus.RUNNING) = false := by simp [hrunne]
    simp only [updatePort]
    rw [hc]
    simp only [hval, Bool.false_eq_true, if_false, hany, hbeq]
    refine ⟨by trivial, ?_⟩
    intro hw
    subst hw
    rfl
  · intro c pid i rest hc h1 h2 hno hrun
    have hval : (newBasePort < 1024 || 65535 < newBasePort) = false := by
      simp [Nat.not_lt.mpr h1, Nat.not_lt.mpr h2]
    have hany : s.connections.any
        (fun c2 => !(c2.id == id) && c2.port == newBasePort) = false := by
      simp only [List.any_eq_false]
      intro c2 hc2
      rcases hno c2 hc2 with h | h <;> simp [h]
    have hbeq : (c.status == ConnectionStatus.RUNNING) = true := by simp [hrun]
    have hstop2 : getConnection (stopConnection writeOk now s id).state.connections id =
        some (stopRunningFields c) := by
      simp only [stopConnection]
      rw [hc]
      have hns : (c.status == ConnectionStatus.STOPPED) = false := by simp [hrun]
      simp only [hns, Bool.false_eq_true, if_false]
      rw [saveState_connections, getConnection_updateFirst, hc] <;>
        first
        | rfl
        | exact fun c2 => rfl
    have hg3 : getConnection (saveState writeOk now
        { (stopConnection writeOk now s id).state with
          connections := updateFirst (fun c2 => c2.id == id)
            (fun c2 => { c2 with port := newBasePort })
            (stopConnection writeOk now s id).state.connections }).connections id =
        some { stopRunningFields c with port := newBasePort } := by
      rw [saveState_connections, getConnection_updateFirst, hstop2] <;>
        first
        | rfl
        | exact fun c2 => rfl
    simp only [updatePort]
    rw [hc]
    simp only [hval, Bool.false_eq_true, if_false, hany, hbeq, if_true]
    refine ⟨by trivial, ?_, ?_⟩
    · intro ho hi
      subst ho
      obtain ⟨-, -, hg4, -⟩ := startConnection_success writeOk now _ id
        { stopRunningFields c with port := newBasePort } pid i rest hg3 (Or.inl rfl) hi
      exact hg4
    · intro hw ho hi
      subst hw
      subst ho
      obtain ⟨-, -, -, hst⟩ := startConnection_success true now _ id
        { stopRunningFields c with port := newBasePort } pid i rest hg3 (Or.inl rfl) hi
      exact hst rfl

/-- Witness for C3: on the mixed sample state, moving the running instance
`b` to the free port 2000 succeeds, leaves no exception, and `b` ends up
Running on port 2000 with the fresh pid 3 after its stop/update/restart. -/
theorem claimC3_witness :
    (updatePort (SpawnOutcome.ok 3) true 9 sampleMixedState "b" 2000).2 = none ∧
    (getConnection (updatePort (SpawnOutcome.ok 3) true 9 sampleMixedState "b"
      2000).1.connections "b").map (fun c2 => c2.port) = some 2000 ∧
    getConnection (updatePort (SpawnOutcome.ok 3) true 9 sampleMixedState "b"
        2000).1.connections "b" =
      some { sampleRunningB with
        port := 2000, process := some 3, status := ConnectionStatus.RUNNING,
        connectionStartTime := some 9, error := none } := by
  obtain ⟨-, -, -, h4, -, h6⟩ := claimC3_updatePortContract (SpawnOutcome.ok 3) true 9
    sampleMixedState "b" 2000
  have hd := h4 sampleRunningB (by decide) (by decide) (by decide) (by decide)
  have hf := h6 sampleRunningB 3 ⟨443, "inbound0"⟩ [] (by decide) (by decide) (by decide)
    (by decide) (by decide)
  exact ⟨hd.1, hd.2, hf.2.1 rfl (by decide)⟩

end ConnMgr
